import Mathlib

/-!
A shallow embedding of the connection pool in `asyncdb/frameworks/pool.py`
(`SocketInfo`, `_closed`, `SocketPool`), together with proofs about the
claims of the specification.

Modelling conventions:
* Python machine state is passed explicitly: every method of `SocketPool`
  becomes a function `PoolState → ... → PoolState × result`.
* `time.time()` is an explicit `now : Nat` argument; elapsed time
  `time.time() - sock_info.last_checkout` becomes truncated `Nat`
  subtraction, which agrees with the Python float comparison whenever
  `now ≥ last_checkout` (timestamps are monotone) and also when
  `now < last_checkout` (both sides then fail the strict `>` tests
  against the nonnegative intervals).
* The result of the `select`-based readiness probe is an explicit
  argument `probe : Except Unit (List Nat)` (`.error` = the `select`
  call raised; `.ok rd` = the list of read-ready descriptors).
* Socket creation (`self._framework.create_socket` + `connect`) either
  succeeds, yielding a fresh socket identified by `newSid : Nat`, or
  raises (`createOk = false`, modelling `socket.error`).
* `max_size`/`max_waiters` use `0` for Python's falsy `None`/`0` — the
  code only tests them by truthiness (`if self.max_size and ...`,
  `if self.max_waiters and ...`).  `wait_queue_timeout` and
  `_check_interval_seconds` are tested with `is not None`, so they stay
  `Option Nat`.
* `self.sockets` is a Python `set`; it is modelled as a `List`, and the
  arbitrary element chosen by `set.pop()` is selected by an explicit
  index argument `k` (taken mod the length), so theorems quantify over
  every possible pop choice.
* A suspended greenlet waiter (`child_gr.switch`) is identified by a
  `Nat`; `self.queue` is the deque of waiter ids (head = front) and
  `self.waiter_timeouts` the list of waiter ids that own a pending
  timeout handle (the dict's key set; the handle itself is opaque).
-/

deriving instance DecidableEq for Except

/-- Embeds `SocketInfo.__init__`: the pool-relevant fields of a pooled
socket. `sid` stands for the identity of the underlying `sock` object;
`authset`, `host`, `connected` and the wire versions play no role in the
pool logic. -/
structure SocketInfo where
  sid : Nat
  closed : Bool
  last_checkout : Nat
  forced : Bool
  pool_id : Nat
  deriving Repr, DecidableEq

instance : Inhabited SocketInfo := ⟨⟨0, false, 0, false, 0⟩⟩

/-- Embeds `SocketInfo.close`: sets the permanent `closed` flag (the
underlying `sock.close()` has no further pool-visible effect). -/
def SocketInfo.close (s : SocketInfo) : SocketInfo := { s with closed := true }

/-- Embeds the module-level `_closed(sock)` probe: any exception from
`select` reports the socket as closed (`True`); otherwise the socket is
closed iff `select` reported it read-ready (`len(rd) > 0`). -/
def closedProbe (probe : Except Unit (List Nat)) : Bool :=
  match probe with
  | Except.error _ => true
  | Except.ok rd => decide (0 < rd.length)

/-- The exceptions the pool raises.  `waitQueueTimeout` embeds the
`ConnectionFailure('Timed out waiting for socket from pool with max_size
%r and wait_queue_timeout %r')` built by
`SocketPool._create_wait_queue_timeout`, carrying the interpolated
values; `creationFailed` embeds a `socket.error` escaping socket
creation. -/
inductive PoolError where
  | waitQueueTimeout (max_size : Nat) (wait_queue_timeout : Option Nat)
  | creationFailed
  deriving Repr, DecidableEq

/-- Embeds the mutable fields of `SocketPool` that the pool logic reads
or writes. -/
structure PoolState where
  sockets : List SocketInfo
  pool_id : Nat
  motor_sock_counter : Int
  queue : List Nat
  waiter_timeouts : List Nat
  max_size : Nat
  max_waiters : Nat
  wait_queue_timeout : Option Nat
  check_interval_seconds : Option Nat
  deriving Repr, DecidableEq

/-- Embeds `SocketPool._create_wait_queue_timeout`. -/
def _create_wait_queue_timeout (p : PoolState) : PoolError :=
  PoolError.waitQueueTimeout p.max_size p.wait_queue_timeout

/-- Embeds `SocketPool.__init__` (the pool-logic fields): empty idle
set, `pool_id = 0`, zero counter, empty queue and timeout dict, and
`max_waiters = max_size * wait_queue_multiple` (`wqm = 0` models a
`None`/`0` multiple, both falsy where `max_waiters` is tested). -/
def initPool (max_size wqm : Nat) (wqt ci : Option Nat) : PoolState :=
  { sockets := []
    pool_id := 0
    motor_sock_counter := 0
    queue := []
    waiter_timeouts := []
    max_size := max_size
    max_waiters := max_size * wqm
    wait_queue_timeout := wqt
    check_interval_seconds := ci }

/-- Embeds `SocketPool.reset`: bump `pool_id`, swap the idle set out and
close every member (the closed sockets are dropped, exactly as the
source drops its local `sockets` binding). -/
def reset (p : PoolState) : PoolState :=
  { p with pool_id := p.pool_id + 1, sockets := [] }

/-- Embeds `SocketPool.create_connection`: increment
`motor_sock_counter` and produce the connected socket; on any failure
the `except` block undoes the increment and re-raises, so the failing
case leaves the state unchanged and returns the error. -/
def create_connection (p : PoolState) (newSid : Nat) (createOk : Bool) :
    PoolState × Except PoolError Nat :=
  if createOk then
    ({ p with motor_sock_counter := p.motor_sock_counter + 1 }, Except.ok newSid)
  else
    (p, Except.error PoolError.creationFailed)

/-- The two ways `SocketPool.connect` can succeed: a freshly created
socket, or suspension of the calling greenlet after it was appended to
the waiter queue (the eventual resume value is delivered by
`maybe_return_socket`). -/
inductive ConnectResult where
  | sock (s : SocketInfo)
  | suspended (waiter : Nat)
  deriving Repr, DecidableEq

/-- Embeds `SocketPool.connect`.  With the pool at capacity and not
forced: raise the wait-queue failure when the waiter queue is full,
otherwise append the caller to `queue` (and register its timeout handle
when `wait_queue_timeout is not None`) and suspend.  Otherwise create a
new connection and wrap it in a `SocketInfo(motor_sock, self.pool_id,
...)`. -/
def connect (p : PoolState) (force : Bool) (waiter newSid now : Nat)
    (createOk : Bool) : PoolState × Except PoolError ConnectResult :=
  if force = false ∧ p.max_size ≠ 0 ∧ (p.max_size : Int) ≤ p.motor_sock_counter then
    if p.max_waiters ≠ 0 ∧ p.max_waiters ≤ p.queue.length then
      (p, Except.error (_create_wait_queue_timeout p))
    else
      ({ p with
          queue := p.queue ++ [waiter]
          waiter_timeouts :=
            if p.wait_queue_timeout.isSome then p.waiter_timeouts ++ [waiter]
            else p.waiter_timeouts },
       Except.ok (ConnectResult.suspended waiter))
  else
    match create_connection p newSid createOk with
    | (p1, Except.ok sid) =>
        (p1, Except.ok (ConnectResult.sock (SocketInfo.mk sid false now false p1.pool_id)))
    | (p1, Except.error e) => (p1, Except.error e)

/-- The branch analysis at the top of `SocketPool._check`: returns the
socket (closed where the source closes it), the `error` flag, and
whether the `_closed(sock_info.sock)` readiness probe was invoked. -/
def checkTriage (p : PoolState) (s : SocketInfo) (now : Nat)
    (probe : Except Unit (List Nat)) : SocketInfo × Bool × Bool :=
  if s.closed then (s, true, false)
  else if p.pool_id ≠ s.pool_id then (SocketInfo.close s, true, false)
  else if p.check_interval_seconds.isSome ∧
      p.check_interval_seconds.getD 0 < now - s.last_checkout then
    (if closedProbe probe then (SocketInfo.close s, true, true) else (s, false, true))
  else if 1 < now - s.last_checkout then
    (if closedProbe probe then (SocketInfo.close s, true, true) else (s, false, true))
  else (s, false, false)

/-- Result of `SocketPool._check`: the post-state, either a usable
socket / a suspension (via the inner `self.connect()`) or a raised
error, plus the instrumentation bit recording whether the readiness
probe ran. -/
structure CheckReturn where
  state : PoolState
  result : Except PoolError ConnectResult
  probed : Bool
  deriving Repr, DecidableEq

/-- Embeds `SocketPool._check`: if the triage reports no error the
socket is returned as-is; otherwise the socket is dropped,
`motor_sock_counter` is decremented, and `self.connect()` (not forced)
is retried — a `socket.error` from that retry triggers `self.reset()`
and re-raises, any other outcome passes through. -/
def _check (p : PoolState) (s : SocketInfo) (now : Nat)
    (probe : Except Unit (List Nat)) (waiter newSid : Nat) (createOk : Bool) :
    CheckReturn :=
  match checkTriage p s now probe with
  | (si, false, pr) => CheckReturn.mk p (Except.ok (ConnectResult.sock si)) pr
  | (_, true, pr) =>
    match connect { p with motor_sock_counter := p.motor_sock_counter - 1 }
        false waiter newSid now createOk with
    | (p2, Except.ok r) => CheckReturn.mk p2 (Except.ok r) pr
    | (p2, Except.error PoolError.creationFailed) =>
        CheckReturn.mk (reset p2) (Except.error PoolError.creationFailed) pr
    | (p2, Except.error e) => CheckReturn.mk p2 (Except.error e) pr

/-- Result of `SocketPool.get_socket`: a socket handed to the caller, or
suspension of the caller as an enqueued waiter. -/
inductive GetResult where
  | got (s : SocketInfo)
  | suspended (waiter : Nat)
  deriving Repr, DecidableEq

/-- Embeds `SocketPool.get_socket`: compute the `forced` flag, then
either pop an arbitrary idle socket (`set.pop()`, choice index `k`) and
run it through `_check`, or call `connect`.  On a socket outcome the
source then runs `sock_info.forced = forced; sock_info.last_checkout =
time.time()`.  (In the suspension outcome those two assignments run only
when the waiter is resumed; see `serve` in the trace semantics.) -/
def get_socket (p : PoolState) (force : Bool) (k waiter newSid now : Nat)
    (probe : Except Unit (List Nat)) (createOk : Bool) :
    PoolState × Except PoolError GetResult :=
  if p.sockets.isEmpty then
    match connect p force waiter newSid now createOk with
    | (p2, Except.ok (ConnectResult.sock s)) =>
        (p2, Except.ok (GetResult.got
          { s with
              forced := force && decide ((p.max_size : Int) ≤ p.motor_sock_counter)
              last_checkout := now }))
    | (p2, Except.ok (ConnectResult.suspended w)) =>
        (p2, Except.ok (GetResult.suspended w))
    | (p2, Except.error e) => (p2, Except.error e)
  else
    match _check { p with sockets := p.sockets.eraseIdx (k % p.sockets.length) }
        (p.sockets.getD (k % p.sockets.length) default) now probe waiter newSid
        createOk with
    | CheckReturn.mk p2 (Except.ok (ConnectResult.sock s)) _ =>
        (p2, Except.ok (GetResult.got
          { s with
              forced := force && decide ((p.max_size : Int) ≤ p.motor_sock_counter)
              last_checkout := now }))
    | CheckReturn.mk p2 (Except.ok (ConnectResult.suspended w)) _ =>
        (p2, Except.ok (GetResult.suspended w))
    | CheckReturn.mk p2 (Except.error e) _ => (p2, Except.error e)

/-- Embeds the trailing `if sock_info.forced: sock_info.forced = False`
of `maybe_return_socket`. -/
def clearForced (s : SocketInfo) : SocketInfo :=
  if s.forced then { s with forced := false } else s

/-- What `SocketPool.maybe_return_socket` did with the socket.  Each
socket-carrying constructor holds the socket's final field values after
the whole method ran (including the trailing forced-flag clearing, which
the early `return` in the `closed` branch skips). -/
inductive ReturnOutcome where
  | noop
  | closedReturn (s : SocketInfo)
  | served (waiter : Nat) (s : SocketInfo)
  | pooled (s : SocketInfo)
  | discarded (s : SocketInfo)
  deriving Repr, DecidableEq

/-- Embeds `SocketPool.maybe_return_socket`.  `None` argument: return at
once.  Closed socket: decrement the counter and return (the
`if not sock_info.forced` guard present in PyMongo is commented out in
this source, so the decrement is unconditional, and the trailing
forced-flag clearing is skipped).  Otherwise: pop the head waiter and
hand the socket over (cancelling and dropping its timeout handle if it
has one), or add it to the idle set when `motor_sock_counter <=
max_size` and the socket's generation is current, or close it and
decrement the counter. -/
def maybe_return_socket (p : PoolState) (sock_info : Option SocketInfo) :
    PoolState × ReturnOutcome :=
  match sock_info with
  | none => (p, ReturnOutcome.noop)
  | some si =>
    if si.closed then
      ({ p with motor_sock_counter := p.motor_sock_counter - 1 },
       ReturnOutcome.closedReturn si)
    else
      match p.queue with
      | waiter :: rest =>
          ({ p with queue := rest, waiter_timeouts := p.waiter_timeouts.erase waiter },
           ReturnOutcome.served waiter (clearForced si))
      | [] =>
          if p.motor_sock_counter ≤ (p.max_size : Int) ∧ si.pool_id = p.pool_id then
            ({ p with sockets := p.sockets ++ [clearForced si] },
             ReturnOutcome.pooled (clearForced si))
          else
            ({ p with motor_sock_counter := p.motor_sock_counter - 1 },
             ReturnOutcome.discarded (clearForced (SocketInfo.close si)))

/-- Embeds `SocketPool.discard_socket`: close the socket if one was
passed; the pool state is untouched. -/
def discard_socket (p : PoolState) (sock_info : Option SocketInfo) :
    PoolState × Option SocketInfo :=
  match sock_info with
  | none => (p, none)
  | some si => (p, some (SocketInfo.close si))

/-- What firing a waiter's deadline (`on_timeout` in
`SocketPool.connect`) did. -/
inductive TimeoutOutcome where
  | resumedWithError (waiter : Nat) (e : PoolError)
  | raisedKeyError
  deriving Repr, DecidableEq

/-- Embeds the `on_timeout` closure registered by `SocketPool.connect`:
remove the waiter from the queue if it is still there, then
`self.waiter_timeouts.pop(waiter)` — an unguarded dict pop, which raises
`KeyError` when the entry is gone (a Python `dict.pop` without default
raises before mutating anything), otherwise the handle is cancelled and
the waiter is resumed by throwing the wait-queue failure into it. -/
def on_timeout (p : PoolState) (waiter : Nat) : PoolState × TimeoutOutcome :=
  if waiter ∈ p.queue then
    if waiter ∈ p.waiter_timeouts then
      ({ p with queue := p.queue.erase waiter,
                waiter_timeouts := p.waiter_timeouts.erase waiter },
       TimeoutOutcome.resumedWithError waiter
         (_create_wait_queue_timeout p))
    else
      ({ p with queue := p.queue.erase waiter }, TimeoutOutcome.raisedKeyError)
  else
    if waiter ∈ p.waiter_timeouts then
      ({ p with waiter_timeouts := p.waiter_timeouts.erase waiter },
       TimeoutOutcome.resumedWithError waiter
         (_create_wait_queue_timeout p))
    else
      (p, TimeoutOutcome.raisedKeyError)

/-!
## Trace semantics

A `World` is a pool together with the sockets currently checked out by
callers (`held`) and a ghost counter `nextWaiter` numbering suspensions
in the order they enqueue (in the source a waiter is the bound method
`child_gr.switch` of the suspended greenlet; numbering them in enqueue
order is faithful because `queue.append` is the only way in).  Each
`PoolOp` is one complete, uninterleaved call into the pool — the
cooperative-scheduling model of the source, where `get_socket`,
`maybe_return_socket` and the timer callback each run to completion —
so the state after each `stepOp` is a quiescent point.
-/

structure World where
  pool : PoolState
  held : List SocketInfo
  nextWaiter : Nat
  deriving Repr, DecidableEq

/-- One complete pool call: a non-forced `get_socket` (with its
environment choices: idle-pop index, fresh socket id, clock value,
probe outcome, creation success), a `maybe_return_socket` of the `i`-th
held socket, or the firing of waiter `w`'s deadline timer. -/
inductive PoolOp where
  | acquire (k newSid now : Nat) (probe : Except Unit (List Nat)) (createOk : Bool)
  | release (i now : Nat)
  | timerFire (w : Nat)
  deriving Repr, DecidableEq

/-- Executes one `PoolOp`.  A socket obtained by `get_socket` moves into
`held`; a socket handed to a waiter by `maybe_return_socket` moves back
into `held` (the served waiter's `get_socket` frame resumes, assigning
`forced = False` — its acquire was non-forced — and `last_checkout =
time.time()`, exactly as the source does after `parent.switch()`
returns). -/
def stepOp (w : World) (op : PoolOp) : World :=
  match op with
  | PoolOp.acquire k newSid now probe createOk =>
    match get_socket w.pool false k w.nextWaiter newSid now probe createOk with
    | (p2, Except.ok (GetResult.got s)) => World.mk p2 (s :: w.held) w.nextWaiter
    | (p2, Except.ok (GetResult.suspended _)) => World.mk p2 w.held (w.nextWaiter + 1)
    | (p2, Except.error _) => World.mk p2 w.held w.nextWaiter
  | PoolOp.release i now =>
    match w.held[i]? with
    | none => w
    | some s =>
      match maybe_return_socket w.pool (some s) with
      | (p2, ReturnOutcome.served _ s2) =>
          World.mk p2 ({ s2 with last_checkout := now } :: w.held.eraseIdx i)
            w.nextWaiter
      | (p2, _) => World.mk p2 (w.held.eraseIdx i) w.nextWaiter
  | PoolOp.timerFire wtr => World.mk (on_timeout w.pool wtr).1 w.held w.nextWaiter

/-- A fresh pool with no checkouts. -/
def initWorld (m wqm : Nat) (wqt ci : Option Nat) : World :=
  World.mk (initPool m wqm wqt ci) [] 0

/-- Runs a sequence of complete pool calls. -/
def runOps (w : World) (ops : List PoolOp) : World := ops.foldl stepOp w

/-!
## Concrete scenario states

Each is reached by running the embedded operations themselves from a
fresh pool, so every counterexample state below is reachable pool
state, not an arbitrary record.
-/

/-- The socket extracted by `ReturnOutcome`: the released socket's final
field values as `maybe_return_socket` left them. -/
def ReturnOutcome.sockOf : ReturnOutcome → Option SocketInfo
  | ReturnOutcome.noop => none
  | ReturnOutcome.closedReturn s => some s
  | ReturnOutcome.served _ s => some s
  | ReturnOutcome.pooled s => some s
  | ReturnOutcome.discarded s => some s

/-- `max_size = 1` pool after one successful non-forced acquire: socket
10 is checked out, `motor_sock_counter = 1`, epoch 0. -/
def c3first : PoolState × Except PoolError GetResult :=
  get_socket (initPool 1 0 none (some 1)) false 0 0 10 0 (Except.ok []) true

/-- The same pool after a `reset()` (epoch 1, idle set emptied) and a
second non-forced acquire, which finds the pool at capacity and enqueues
waiter 0. -/
def c3pool : PoolState :=
  (get_socket (reset c3first.1) false 0 0 11 5 (Except.ok []) true).1

/-- `max_size = 1`, `wait_queue_timeout = 50` pool after one successful
acquire (socket 10) and a second acquire that enqueued waiter 0 with a
deadline timer. -/
def c4wait : World :=
  runOps (initWorld 1 0 (some 50) (some 1))
    [PoolOp.acquire 0 10 0 (Except.ok []) true,
     PoolOp.acquire 0 11 0 (Except.ok []) true]

/-- The pool of `c4wait` after socket 10 was released: waiter 0 was
dequeued and served, its timer handle popped and cancelled. -/
def c4pool : PoolState :=
  (maybe_return_socket c4wait.pool (some (SocketInfo.mk 10 false 0 false 0))).1

/-- Two consecutive forced acquires on a `max_size = 1` pool: the first
creates socket 10 (within capacity, so not marked forced), the second
bypasses the full pool and creates socket 11 marked `forced`. -/
def c5g1 : PoolState × Except PoolError GetResult :=
  get_socket (initPool 1 0 none (some 1)) true 0 0 10 0 (Except.ok []) true

/-- Second forced acquire of the `c5g1` scenario. -/
def c5g2 : PoolState × Except PoolError GetResult :=
  get_socket c5g1.1 true 0 0 11 0 (Except.ok []) true

/-- `max_size = 1`, `wait_queue_multiple = 1` (so `max_waiters = 1`),
`wait_queue_timeout = 50` pool after one successful acquire and a second
acquire that filled the waiter queue (waiter 0). -/
def c6pool : PoolState :=
  (runOps (initWorld 1 1 (some 50) (some 1))
    [PoolOp.acquire 0 10 0 (Except.ok []) true,
     PoolOp.acquire 0 11 0 (Except.ok []) true]).pool

/-- An idle-reuse candidate socket: open, current epoch, last checked
out at time 0. -/
def c7sock : SocketInfo := SocketInfo.mk 10 false 0 false 0

/-- Pool with the health-check interval disabled
(`_check_interval_seconds = None`) and one socket out. -/
def c7poolNone : PoolState :=
  { initPool 1 0 none none with motor_sock_counter := 1 }

/-- Pool with the health-check interval raised to 5 seconds and one
socket out. -/
def c7poolFive : PoolState :=
  { initPool 1 0 none (some 5) with motor_sock_counter := 1 }

/-- A closed socket still carrying the `forced` flag (as produced by
`discard_socket` on a forced checkout). -/
def c8sock : SocketInfo := SocketInfo.mk 10 true 0 true 0

/-- Pool for the C9 witness: `max_size = 2`, one socket out. -/
def c9pool : PoolState :=
  { initPool 2 0 none (some 1) with motor_sock_counter := 1 }

/-- The inductive invariant of non-forced traces on a pool with
`max_size = m`: the sockets checked out plus the idle set never exceed
`motor_sock_counter`, the counter never exceeds `m`, and the waiter
queue lists enqueue-numbers in strictly increasing (FIFO) order, all
below the ghost counter `nextWaiter`. -/
def WorldInv (m : Nat) (w : World) : Prop :=
  w.pool.max_size = m ∧
  ((w.held.length + w.pool.sockets.length : Nat) : Int) ≤ w.pool.motor_sock_counter ∧
  w.pool.motor_sock_counter ≤ (m : Int) ∧
  List.Pairwise (· < ·) w.pool.queue ∧
  ∀ x ∈ w.pool.queue, x < w.nextWaiter

/-!
## Helper lemmas
-/

theorem connect_false_cases (p : PoolState) (waiter newSid now : Nat)
    (createOk : Bool) :
    connect p false waiter newSid now createOk =
        (p, Except.error (_create_wait_queue_timeout p)) ∨
    connect p false waiter newSid now createOk =
      ({ p with
          queue := p.queue ++ [waiter]
          waiter_timeouts :=
            if p.wait_queue_timeout.isSome then p.waiter_timeouts ++ [waiter]
            else p.waiter_timeouts },
       Except.ok (ConnectResult.suspended waiter)) ∨
    ((p.max_size ≠ 0 → p.motor_sock_counter < (p.max_size : Int)) ∧
      connect p false waiter newSid now createOk =
        ({ p with motor_sock_counter := p.motor_sock_counter + 1 },
         Except.ok (ConnectResult.sock (SocketInfo.mk newSid false now false p.pool_id)))) ∨
    connect p false waiter newSid now createOk =
        (p, Except.error PoolError.creationFailed) := by
  unfold connect create_connection
  by_cases hcap : false = false ∧ p.max_size ≠ 0 ∧
      (p.max_size : Int) ≤ p.motor_sock_counter
  · rw [if_pos hcap]
    by_cases hfull : p.max_waiters ≠ 0 ∧ p.max_waiters ≤ p.queue.length
    · rw [if_pos hfull]
      exact Or.inl rfl
    · rw [if_neg hfull]
      exact Or.inr (Or.inl rfl)
  · rw [if_neg hcap]
    by_cases hok : createOk = true
    · rw [if_pos hok]
      refine Or.inr (Or.inr (Or.inl ⟨?_, rfl⟩))
      intro hm
      by_contra hlt
      exact hcap ⟨rfl, hm, le_of_not_lt hlt⟩
    · rw [if_neg hok]
      exact Or.inr (Or.inr (Or.inr rfl))

theorem clearForced_forced (s : SocketInfo) : (clearForced s).forced = false := by
  unfold clearForced
  by_cases h : s.forced = true
  · rw [if_pos h]
  · rw [if_neg h]
    exact Bool.not_eq_true _ |>.mp h

theorem connect_sock_fields (p : PoolState) (force : Bool) (waiter newSid now : Nat)
    (createOk : Bool) (s : SocketInfo)
    (h : (connect p force waiter newSid now createOk).2 =
      Except.ok (ConnectResult.sock s)) :
    s.pool_id = p.pool_id ∧ s.closed = false := by
  unfold connect create_connection at h
  by_cases hcap : force = false ∧ p.max_size ≠ 0 ∧
      (p.max_size : Int) ≤ p.motor_sock_counter
  · rw [if_pos hcap] at h
    by_cases hfull : p.max_waiters ≠ 0 ∧ p.max_waiters ≤ p.queue.length
    · rw [if_pos hfull] at h
      cases h
    · rw [if_neg hfull] at h
      cases h
  · rw [if_neg hcap] at h
    by_cases hok : createOk = true
    · rw [if_pos hok] at h
      injection h with h1
      injection h1 with h2
      rw [← h2]
      exact ⟨rfl, rfl⟩
    · rw [if_neg hok] at h
      cases h

theorem checkTriage_ok_fields (p : PoolState) (s : SocketInfo) (now : Nat)
    (probe : Except Unit (List Nat)) (si : SocketInfo) (pr : Bool)
    (h : checkTriage p s now probe = (si, false, pr)) :
    si.pool_id = p.pool_id ∧ si.closed = false := by
  unfold checkTriage at h
  by_cases h1 : s.closed = true
  · rw [if_pos h1] at h
    simp at h
  · rw [if_neg h1] at h
    by_cases h2 : p.pool_id ≠ s.pool_id
    · rw [if_pos h2] at h
      simp at h
    · rw [if_neg h2] at h
      push_neg at h2
      by_cases h3 : p.check_interval_seconds.isSome = true ∧
          p.check_interval_seconds.getD 0 < now - s.last_checkout
      · rw [if_pos h3] at h
        by_cases h4 : closedProbe probe = true
        · rw [if_pos h4] at h
          simp at h
        · rw [if_neg h4] at h
          obtain ⟨rfl, -⟩ := Prod.mk.injEq .. ▸ h
          exact ⟨h2.symm, Bool.not_eq_true _ |>.mp h1⟩
      · rw [if_neg h3] at h
        by_cases h5 : 1 < now - s.last_checkout
        · rw [if_pos h5] at h
          by_cases h4 : closedProbe probe = true
          · rw [if_pos h4] at h
            simp at h
          · rw [if_neg h4] at h
            obtain ⟨rfl, -⟩ := Prod.mk.injEq .. ▸ h
            exact ⟨h2.symm, Bool.not_eq_true _ |>.mp h1⟩
        · rw [if_neg h5] at h
          obtain ⟨rfl, -⟩ := Prod.mk.injEq .. ▸ h
          exact ⟨h2.symm, Bool.not_eq_true _ |>.mp h1⟩

theorem check_sock_fields (p : PoolState) (s : SocketInfo) (now : Nat)
    (probe : Except Unit (List Nat)) (waiter newSid : Nat) (createOk : Bool)
    (s2 : SocketInfo)
    (h : (_check p s now probe waiter newSid createOk).result =
      Except.ok (ConnectResult.sock s2)) :
    s2.pool_id = p.pool_id ∧ s2.closed = false := by
  unfold _check at h
  rcases htr : checkTriage p s now probe with ⟨si, err, pr⟩
  rw [htr] at h
  cases err with
  | false =>
    injection h with h1
    injection h1 with h2
    rw [← h2]
    exact checkTriage_ok_fields p s now probe si pr htr
  | true =>
    rcases hc : connect { p with motor_sock_counter := p.motor_sock_counter - 1 }
        false waiter newSid now createOk with ⟨p2, r2⟩
    rw [hc] at h
    match r2 with
    | Except.ok (ConnectResult.sock s3) =>
      injection h with h1
      injection h1 with h2
      have := connect_sock_fields
        { p with motor_sock_counter := p.motor_sock_counter - 1 }
        false waiter newSid now createOk s3 (by rw [hc])
      rw [← h2]
      exact this
    | Except.ok (ConnectResult.suspended w) => cases h
    | Except.error PoolError.creationFailed => cases h
    | Except.error (PoolError.waitQueueTimeout a b) => cases h

/-!
## Claim theorems
-/

/-- C3 (counterexample): on a `max_size = 1` pool, socket 10 is created
at epoch 0 and checked out; after `reset()` (epoch 1) a second acquire
enqueues waiter 0; `maybe_return_socket` then hands the stale socket 10
(creation epoch 0 ≠ current epoch 1) straight to waiter 0 — the
release-to-waiter handoff path performs no epoch check, so a resource
created before the most recent `reset()` IS handed out again. -/
theorem stale_socket_handed_to_waiter_cex :
    c3first.2 = Except.ok (GetResult.got (SocketInfo.mk 10 false 0 false 0)) ∧
    c3pool.pool_id = 1 ∧
    (SocketInfo.mk 10 false 0 false 0).pool_id ≠ c3pool.pool_id ∧
    (maybe_return_socket c3pool (some (SocketInfo.mk 10 false 0 false 0))).2 =
      ReturnOutcome.served 0 (SocketInfo.mk 10 false 0 false 0) := by decide

/-- C3 (amended): a resource whose creation epoch (`pool_id`) predates
the most recent `reset()` is never handed out by `get_socket`'s direct
return paths — every socket `get_socket` returns (from the idle set,
which `_check` screens, or freshly created) carries the pool's current
`pool_id`.  The release-to-waiter handoff in `maybe_return_socket`,
however, performs no epoch check and can pass a stale resource to a
waiter (see the counterexample). -/
theorem get_socket_returns_current_epoch_only
    (p : PoolState) (force : Bool) (k waiter newSid now : Nat)
    (probe : Except Unit (List Nat)) (createOk : Bool) (s : SocketInfo)
    (h : (get_socket p force k waiter newSid now probe createOk).2 =
      Except.ok (GetResult.got s)) :
    s.pool_id = p.pool_id := by
  unfold get_socket at h
  by_cases hemp : p.sockets.isEmpty = true
  · rw [if_pos hemp] at h
    rcases hc : connect p force waiter newSid now createOk with ⟨p2, r2⟩
    rw [hc] at h
    match r2 with
    | Except.ok (ConnectResult.sock s3) =>
      injection h with h1
      injection h1 with h2
      have hf := connect_sock_fields p force waiter newSid now createOk s3 (by rw [hc])
      rw [← h2]
      exact hf.1
    | Except.ok (ConnectResult.suspended w) => cases h
    | Except.error e => cases h
  · rw [if_neg hemp] at h
    rcases hc : _check { p with sockets := p.sockets.eraseIdx (k % p.sockets.length) }
        (p.sockets.getD (k % p.sockets.length) default) now probe waiter newSid
        createOk with ⟨p2, r2, pr⟩
    rw [hc] at h
    match r2 with
    | Except.ok (ConnectResult.sock s3) =>
      injection h with h1
      injection h1 with h2
      have hf := check_sock_fields
        { p with sockets := p.sockets.eraseIdx (k % p.sockets.length) }
        (p.sockets.getD (k % p.sockets.length) default) now probe waiter newSid
        createOk s3 (by rw [hc])
      rw [← h2]
      exact hf.1
    | Except.ok (ConnectResult.suspended w) => cases h
    | Except.error e => cases h

/-- C3 (witness): the amended theorem applied to a fresh `max_size = 1`
pool whose first acquire creates socket 10 at the current epoch 0. -/
theorem get_socket_returns_current_epoch_only_witness :
    (get_socket (initPool 1 0 none (some 1)) false 0 0 10 0 (Except.ok []) true).2 =
      Except.ok (GetResult.got (SocketInfo.mk 10 false 0 false 0)) ∧
    (SocketInfo.mk 10 false 0 false 0).pool_id = (initPool 1 0 none (some 1)).pool_id :=
  ⟨by decide, get_socket_returns_current_epoch_only (initPool 1 0 none (some 1)) false
    0 0 10 0 (Except.ok []) true (SocketInfo.mk 10 false 0 false 0) (by decide)⟩

/-- C4 (code_bug): in the `c4wait` scenario waiter 0 is enqueued with a
deadline timer; releasing socket 10 serves it (removing it from both
`queue` and `waiter_timeouts`).  Firing its deadline timer afterwards is
NOT a clean no-op: the waiter is indeed not resumed a second time and
the pool state is unchanged, but the unguarded
`self.waiter_timeouts.pop(waiter)` raises `KeyError` inside the timer
callback, contradicting the claimed "no error is raised". -/
theorem on_timeout_after_serve_raises_keyerror :
    (maybe_return_socket c4wait.pool (some (SocketInfo.mk 10 false 0 false 0))).2 =
      ReturnOutcome.served 0 (SocketInfo.mk 10 false 0 false 0) ∧
    on_timeout c4pool 0 = (c4pool, TimeoutOutcome.raisedKeyError) := by decide

/-- C5 (code_bug): two forced acquires on a full `max_size = 1` pool
leave socket 11 marked `forced` and `motor_sock_counter = 2`.  Releasing
that forced socket decrements the counter on both terminal paths — when
it comes back closed (early-return branch) and when it is discarded as
over-capacity — because the `if not sock_info.forced` guards are
commented out; the claim (and `get_socket`'s own docstring) say forced
units are never subtracted. -/
theorem maybe_return_socket_forced_decrements_counter :
    c5g2.2 = Except.ok (GetResult.got (SocketInfo.mk 11 false 0 true 0)) ∧
    c5g2.1.motor_sock_counter = 2 ∧
    (maybe_return_socket c5g2.1
        (some (SocketInfo.close (SocketInfo.mk 11 false 0 true 0)))).1.motor_sock_counter
      = 1 ∧
    (maybe_return_socket c5g2.1
        (some (SocketInfo.mk 11 false 0 true 0))).1.motor_sock_counter = 1 := by decide

/-- C7 (code_bug): the readiness probe is gated by the configured
interval only in the first `elif`; the duplicated second `elif` probes
whenever more than 1 second elapsed.  So with the interval disabled
(`_check_interval_seconds = None`) a socket idle for 2 seconds is still
probed, and with the interval raised to 5 a socket idle for only 3
seconds (within the configured interval) is probed — both contradict
"probed only when more than the configured interval has elapsed". -/
theorem check_probes_beyond_configured_interval :
    (_check c7poolNone c7sock 2 (Except.ok []) 0 11 true).probed = true ∧
    (_check c7poolFive c7sock 3 (Except.ok []) 0 11 true).probed = true := by decide

/-- C8 (counterexample): releasing a closed socket that carries the
`forced` flag hits the early `return` in `maybe_return_socket`, which
skips the trailing `sock_info.forced = False`; the flag is still set
when the release completes, contradicting "the flag is false when
release completes" for the closed case. -/
theorem closed_forced_socket_keeps_forced_flag_cex :
    (maybe_return_socket (initPool 1 0 none (some 1)) (some c8sock)).2 =
      ReturnOutcome.closedReturn c8sock ∧
    c8sock.forced = true := by decide

/-- C10: releasing (`maybe_return_socket`) or discarding
(`discard_socket`) a null resource is a complete no-op: the returned
pool state is the input state, so the idle set, the counter, the waiter
queue and the epoch are all unchanged. -/
theorem return_and_discard_none_are_noops (p : PoolState) :
    maybe_return_socket p none = (p, ReturnOutcome.noop) ∧
    discard_socket p none = (p, none) :=
  ⟨rfl, rfl⟩

theorem maybe_return_socket_cases (p : PoolState) (si : SocketInfo) :
    (si.closed = true ∧ maybe_return_socket p (some si) =
      ({ p with motor_sock_counter := p.motor_sock_counter - 1 },
       ReturnOutcome.closedReturn si)) ∨
    (∃ w rest, p.queue = w :: rest ∧ maybe_return_socket p (some si) =
      ({ p with queue := rest, waiter_timeouts := p.waiter_timeouts.erase w },
       ReturnOutcome.served w (clearForced si))) ∨
    (p.queue = [] ∧ maybe_return_socket p (some si) =
      ({ p with sockets := p.sockets ++ [clearForced si] },
       ReturnOutcome.pooled (clearForced si))) ∨
    (p.queue = [] ∧ maybe_return_socket p (some si) =
      ({ p with motor_sock_counter := p.motor_sock_counter - 1 },
       ReturnOutcome.discarded (clearForced (SocketInfo.close si)))) := by
  show _ ∨ _
  simp only [maybe_return_socket]
  by_cases hcl : si.closed = true
  · rw [if_pos hcl]
    exact Or.inl ⟨hcl, rfl⟩
  · rw [if_neg hcl]
    rcases hq : p.queue with _ | ⟨w, rest⟩
    · by_cases hle : p.motor_sock_counter ≤ (p.max_size : Int) ∧ si.pool_id = p.pool_id
      · rw [if_pos hle]
        exact Or.inr (Or.inr (Or.inl ⟨rfl, rfl⟩))
      · rw [if_neg hle]
        exact Or.inr (Or.inr (Or.inr ⟨rfl, rfl⟩))
    · exact Or.inr (Or.inl ⟨w, rest, rfl, rfl⟩)

/-- C8 (amended): after `maybe_return_socket` returns, the released
resource's `forced` flag is cleared on every path that gets past the
closed-socket early return — handed to a waiter, returned to idle, or
discarded; it is NOT cleared when the socket came back already closed
(see the counterexample). -/
theorem maybe_return_socket_clears_forced_when_not_closed
    (p : PoolState) (s s2 : SocketInfo) (hc : s.closed = false)
    (h : ((maybe_return_socket p (some s)).2).sockOf = some s2) :
    s2.forced = false := by
  rcases maybe_return_socket_cases p s with ⟨hcl, hm⟩ | ⟨w, rest, hq, hm⟩ |
    ⟨hq, hm⟩ | ⟨hq, hm⟩
  · rw [hc] at hcl
    cases hcl
  · rw [hm] at h
    injection h with h2
    rw [← h2]
    exact clearForced_forced _
  · rw [hm] at h
    injection h with h2
    rw [← h2]
    exact clearForced_forced _
  · rw [hm] at h
    injection h with h2
    rw [← h2]
    exact clearForced_forced _

/-- C8 (witness): the amended theorem applied to an open forced socket
returned to an empty-queue pool (the returned-to-idle path). -/
theorem maybe_return_socket_clears_forced_when_not_closed_witness :
    (SocketInfo.mk 10 false 0 true 0).closed = false ∧
    ((maybe_return_socket (initPool 1 0 none (some 1))
        (some (SocketInfo.mk 10 false 0 true 0))).2).sockOf =
      some (SocketInfo.mk 10 false 0 false 0) ∧
    (SocketInfo.mk 10 false 0 false 0).forced = false :=
  ⟨by decide, by decide,
   maybe_return_socket_clears_forced_when_not_closed (initPool 1 0 none (some 1))
     (SocketInfo.mk 10 false 0 true 0) (SocketInfo.mk 10 false 0 false 0)
     (by decide) (by decide)⟩

/-- C6 (counterexample): on the full-queue pool `c6pool`
(`max_size = 1`, `max_waiters = 1`, one enqueued waiter), the immediate
rejection of a further non-forced acquire and the deadline expiry of the
enqueued waiter raise the SAME exception — both are built by
`_create_wait_queue_timeout`, a `ConnectionFailure` with identical
parameters — so the queue-full rejection is not a failure distinct from
the deadline timeout. -/
theorem pool_exhausted_error_equals_timeout_error_cex :
    (get_socket c6pool false 0 5 12 0 (Except.ok []) true).2 =
      Except.error (PoolError.waitQueueTimeout 1 (some 50)) ∧
    (on_timeout c6pool 0).2 =
      TimeoutOutcome.resumedWithError 0 (PoolError.waitQueueTimeout 1 (some 50)) := by
  decide

/-- C6 (amended): a non-forced `get_socket` on a pool with no idle
sockets, a nonzero `max_size` reached by the counter, and a nonzero
`max_waiters` already reached by the waiter queue fails immediately and
synchronously with the wait-queue `ConnectionFailure` built by
`_create_wait_queue_timeout` — the same exception (type and message) the
deadline timeout raises, not a distinct one — without enqueueing the
caller and leaving the pool state completely unchanged. -/
theorem queue_full_get_socket_rejects_synchronously
    (p : PoolState) (k waiter newSid now : Nat) (probe : Except Unit (List Nat))
    (createOk : Bool) (h1 : p.sockets = []) (h2 : p.max_size ≠ 0)
    (h3 : (p.max_size : Int) ≤ p.motor_sock_counter)
    (h4 : p.max_waiters ≠ 0) (h5 : p.max_waiters ≤ p.queue.length) :
    get_socket p false k waiter newSid now probe createOk =
      (p, Except.error (_create_wait_queue_timeout p)) := by
  unfold get_socket connect
  rw [h1]
  rw [if_pos (List.isEmpty_nil : ([] : List SocketInfo).isEmpty = true)]
  rw [if_pos ⟨rfl, h2, h3⟩, if_pos ⟨h4, h5⟩]

/-- C6 (witness): the amended rejection theorem applied to the concrete
full-queue pool `c6pool`. -/
theorem queue_full_get_socket_rejects_synchronously_witness :
    (c6pool.sockets = [] ∧ c6pool.max_size ≠ 0 ∧
      (c6pool.max_size : Int) ≤ c6pool.motor_sock_counter ∧
      c6pool.max_waiters ≠ 0 ∧ c6pool.max_waiters ≤ c6pool.queue.length) ∧
    get_socket c6pool false 0 5 12 0 (Except.ok []) true =
      (c6pool, Except.error (_create_wait_queue_timeout c6pool)) :=
  ⟨⟨by decide, by decide, by decide, by decide, by decide⟩,
   queue_full_get_socket_rejects_synchronously c6pool 0 5 12 0 (Except.ok []) true
     (by decide) (by decide) (by decide) (by decide) (by decide)⟩

/-- C9: an exception escaping the `select` readiness probe makes
`_closed` report the socket as dead (`closedProbe = true`), and `_check`
on an otherwise-eligible idle socket (open, current epoch, idle past the
configured interval) therefore discards it and returns a freshly created
replacement carrying the current epoch — the probe's exception is never
propagated to the acquiring caller, and the counter is left balanced
(one discard, one creation). -/
theorem probe_exception_treated_as_dead_and_replaced
    (p : PoolState) (s : SocketInfo) (now waiter newSid i : Nat)
    (h1 : s.closed = false) (h2 : p.pool_id = s.pool_id)
    (h3 : p.check_interval_seconds = some i) (h4 : i < now - s.last_checkout)
    (h5 : p.motor_sock_counter ≤ (p.max_size : Int)) :
    closedProbe (Except.error ()) = true ∧
    (_check p s now (Except.error ()) waiter newSid true).result =
      Except.ok (ConnectResult.sock (SocketInfo.mk newSid false now false p.pool_id)) ∧
    (_check p s now (Except.error ()) waiter newSid true).state.motor_sock_counter =
      p.motor_sock_counter := by
  have hc1 : ¬ s.closed = true := by
    rw [h1]
    exact Bool.false_ne_true
  have hc2 : ¬ p.pool_id ≠ s.pool_id := fun hne => hne h2
  have htr : checkTriage p s now (Except.error ()) = (SocketInfo.close s, true, true) := by
    unfold checkTriage
    rw [if_neg hc1, if_neg hc2, h3]
    rw [if_pos ⟨rfl, by simpa using h4⟩]
    rfl
  have hcap : ¬ (false = false ∧ p.max_size ≠ 0 ∧
      (p.max_size : Int) ≤ p.motor_sock_counter - 1) := by
    rintro ⟨-, -, hle⟩
    omega
  have hch : _check p s now (Except.error ()) waiter newSid true =
      CheckReturn.mk { p with motor_sock_counter := p.motor_sock_counter - 1 + 1 }
        (Except.ok (ConnectResult.sock (SocketInfo.mk newSid false now false p.pool_id)))
        true := by
    unfold _check connect create_connection
    rw [htr]
    rw [if_neg hcap, if_pos rfl]
  refine ⟨rfl, ?_, ?_⟩
  · rw [hch]
  · rw [hch]
    show p.motor_sock_counter - 1 + 1 = p.motor_sock_counter
    omega

/-- C9 (witness): the probe-exception theorem applied to the concrete
pool `c9pool` and an idle socket last checked out 5 seconds before. -/
theorem probe_exception_treated_as_dead_and_replaced_witness :
    ((SocketInfo.mk 10 false 0 false 0).closed = false ∧
      c9pool.pool_id = (SocketInfo.mk 10 false 0 false 0).pool_id ∧
      c9pool.check_interval_seconds = some 1 ∧
      1 < 5 - (SocketInfo.mk 10 false 0 false 0).last_checkout ∧
      c9pool.motor_sock_counter ≤ (c9pool.max_size : Int)) ∧
    closedProbe (Except.error ()) = true ∧
    (_check c9pool (SocketInfo.mk 10 false 0 false 0) 5 (Except.error ()) 0 11
        true).result =
      Except.ok (ConnectResult.sock (SocketInfo.mk 11 false 5 false c9pool.pool_id)) ∧
    (_check c9pool (SocketInfo.mk 10 false 0 false 0) 5 (Except.error ()) 0 11
        true).state.motor_sock_counter = c9pool.motor_sock_counter :=
  ⟨⟨by decide, by decide, by decide, by decide, by decide⟩,
   probe_exception_treated_as_dead_and_replaced c9pool
     (SocketInfo.mk 10 false 0 false 0) 5 0 11 1 (by decide) (by decide) (by decide)
     (by decide) (by decide)⟩

theorem get_socket_false_cases (p : PoolState) (k waiter newSid now : Nat)
    (probe : Except Unit (List Nat)) (createOk : Bool) :
    get_socket p false k waiter newSid now probe createOk =
        (p, Except.error (_create_wait_queue_timeout p)) ∨
    get_socket p false k waiter newSid now probe createOk =
      ({ p with
          queue := p.queue ++ [waiter]
          waiter_timeouts :=
            if p.wait_queue_timeout.isSome then p.waiter_timeouts ++ [waiter]
            else p.waiter_timeouts },
       Except.ok (GetResult.suspended waiter)) ∨
    ((p.max_size ≠ 0 → p.motor_sock_counter < (p.max_size : Int)) ∧
      ∃ s, get_socket p false k waiter newSid now probe createOk =
        ({ p with motor_sock_counter := p.motor_sock_counter + 1 },
         Except.ok (GetResult.got s))) ∨
    get_socket p false k waiter newSid now probe createOk =
        (p, Except.error PoolError.creationFailed) ∨
    (p.sockets ≠ [] ∧ (
      (∃ s, get_socket p false k waiter newSid now probe createOk =
        ({ p with sockets := p.sockets.eraseIdx (k % p.sockets.length) },
         Except.ok (GetResult.got s))) ∨
      get_socket p false k waiter newSid now probe createOk =
        ({ p with
            sockets := p.sockets.eraseIdx (k % p.sockets.length)
            motor_sock_counter := p.motor_sock_counter - 1
            queue := p.queue ++ [waiter]
            waiter_timeouts :=
              if p.wait_queue_timeout.isSome then p.waiter_timeouts ++ [waiter]
              else p.waiter_timeouts },
         Except.ok (GetResult.suspended waiter)) ∨
      (∃ s, get_socket p false k waiter newSid now probe createOk =
        ({ p with
            sockets := p.sockets.eraseIdx (k % p.sockets.length)
            motor_sock_counter := p.motor_sock_counter - 1 + 1 },
         Except.ok (GetResult.got s))) ∨
      get_socket p false k waiter newSid now probe createOk =
        (reset { p with
            sockets := p.sockets.eraseIdx (k % p.sockets.length)
            motor_sock_counter := p.motor_sock_counter - 1 },
         Except.error PoolError.creationFailed) ∨
      get_socket p false k waiter newSid now probe createOk =
        ({ p with
            sockets := p.sockets.eraseIdx (k % p.sockets.length)
            motor_sock_counter := p.motor_sock_counter - 1 },
         Except.error (_create_wait_queue_timeout { p with
            sockets := p.sockets.eraseIdx (k % p.sockets.length)
            motor_sock_counter := p.motor_sock_counter - 1 })))) := by
  by_cases hemp : p.sockets.isEmpty = true
  · unfold get_socket
    rw [if_pos hemp]
    rcases connect_false_cases p waiter newSid now createOk with
      hc | hc | ⟨hg, hc⟩ | hc <;> rw [hc]
    · exact Or.inl rfl
    · exact Or.inr (Or.inl rfl)
    · exact Or.inr (Or.inr (Or.inl ⟨hg, _, rfl⟩))
    · exact Or.inr (Or.inr (Or.inr (Or.inl rfl)))
  · have hne : p.sockets ≠ [] := fun hn => hemp (by rw [hn]; rfl)
    unfold get_socket _check
    rw [if_neg hemp]
    rcases htr : checkTriage
        { p with sockets := p.sockets.eraseIdx (k % p.sockets.length) }
        (p.sockets.getD (k % p.sockets.length) default) now probe with ⟨si, err, pr⟩
    cases err
    · exact Or.inr (Or.inr (Or.inr (Or.inr ⟨hne, Or.inl ⟨_, rfl⟩⟩)))
    · rcases connect_false_cases
        { p with
            sockets := p.sockets.eraseIdx (k % p.sockets.length)
            motor_sock_counter := p.motor_sock_counter - 1 }
        waiter newSid now createOk with hc | hc | ⟨hg, hc⟩ | hc <;> rw [hc]
      · exact Or.inr (Or.inr (Or.inr (Or.inr
          ⟨hne, Or.inr (Or.inr (Or.inr (Or.inr rfl)))⟩)))
      · exact Or.inr (Or.inr (Or.inr (Or.inr ⟨hne, Or.inr (Or.inl rfl)⟩)))
      · exact Or.inr (Or.inr (Or.inr (Or.inr
          ⟨hne, Or.inr (Or.inr (Or.inl ⟨_, rfl⟩))⟩)))
      · exact Or.inr (Or.inr (Or.inr (Or.inr
          ⟨hne, Or.inr (Or.inr (Or.inr (Or.inl rfl)))⟩)))

theorem pairwise_append_singleton {q : List Nat} {n : Nat}
    (hp : q.Pairwise (· < ·)) (hall : ∀ x ∈ q, x < n) :
    (q ++ [n]).Pairwise (· < ·) := by
  refine List.pairwise_append.mpr ⟨hp, ?_, ?_⟩
  · simp
  · intro a ha b hb
    rw [List.mem_singleton] at hb
    subst hb
    exact hall a ha

theorem mem_append_singleton_lt {q : List Nat} {n : Nat}
    (hall : ∀ x ∈ q, x < n) : ∀ x ∈ q ++ [n], x < n + 1 := by
  intro x hx
  rcases List.mem_append.mp hx with hx | hx
  · have := hall x hx
    omega
  · rw [List.mem_singleton] at hx
    subst hx
    omega

theorem on_timeout_state (p : PoolState) (wtr : Nat) :
    (on_timeout p wtr).1.motor_sock_counter = p.motor_sock_counter ∧
    (on_timeout p wtr).1.sockets = p.sockets ∧
    (on_timeout p wtr).1.max_size = p.max_size ∧
    ((on_timeout p wtr).1.queue = p.queue ∨
      (on_timeout p wtr).1.queue = p.queue.erase wtr) := by
  unfold on_timeout
  by_cases h1 : wtr ∈ p.queue
  · rw [if_pos h1]
    by_cases h2 : wtr ∈ p.waiter_timeouts
    · rw [if_pos h2]
      exact ⟨rfl, rfl, rfl, Or.inr rfl⟩
    · rw [if_neg h2]
      exact ⟨rfl, rfl, rfl, Or.inr rfl⟩
  · rw [if_neg h1]
    by_cases h2 : wtr ∈ p.waiter_timeouts
    · rw [if_pos h2]
      exact ⟨rfl, rfl, rfl, Or.inl rfl⟩
    · rw [if_neg h2]
      exact ⟨rfl, rfl, rfl, Or.inl rfl⟩

theorem stepOp_preserves (m : Nat) (hm : 0 < m) (w : World) (op : PoolOp)
    (h : WorldInv m w) : WorldInv m (stepOp w op) := by
  obtain ⟨hms, h1, h2, h3, h4⟩ := h
  unfold WorldInv
  cases op with
  | acquire k newSid now probe createOk =>
    simp only [stepOp]
    rcases get_socket_false_cases w.pool k w.nextWaiter newSid now probe createOk with
      hc | hc | ⟨hg, s, hc⟩ | hc | ⟨hne, hcc⟩
    · rw [hc]
      exact ⟨hms, h1, h2, h3, h4⟩
    · rw [hc]
      exact ⟨hms, h1, h2, pairwise_append_singleton h3 h4, mem_append_singleton_lt h4⟩
    · rw [hc]
      refine ⟨hms, ?_, ?_, h3, h4⟩
      · simp only [List.length_cons]
        push_cast at h1 ⊢
        omega
      · have hlt := hg (by omega)
        rw [hms] at hlt
        simp only []
        omega
    · rw [hc]
      exact ⟨hms, h1, h2, h3, h4⟩
    · have hpos : 0 < w.pool.sockets.length := List.length_pos.mpr hne
      have hlen : (w.pool.sockets.eraseIdx (k % w.pool.sockets.length)).length + 1 =
          w.pool.sockets.length :=
        List.length_eraseIdx_add_one (Nat.mod_lt k hpos)
      rcases hcc with ⟨s, hc⟩ | hc | ⟨s, hc⟩ | hc | hc <;> rw [hc]
      · refine ⟨hms, ?_, h2, h3, h4⟩
        simp only [List.length_cons]
        push_cast at h1 ⊢
        omega
      · refine ⟨hms, ?_, ?_,
          pairwise_append_singleton h3 h4, mem_append_singleton_lt h4⟩
        · push_cast at h1 ⊢
          omega
        · show w.pool.motor_sock_counter - 1 ≤ (m : Int)
          omega
      · refine ⟨hms, ?_, ?_, h3, h4⟩
        · simp only [List.length_cons]
          push_cast at h1 ⊢
          omega
        · show w.pool.motor_sock_counter - 1 + 1 ≤ (m : Int)
          omega
      · unfold reset
        refine ⟨hms, ?_, ?_, h3, h4⟩
        · simp only [List.length_nil]
          push_cast at h1 ⊢
          omega
        · show w.pool.motor_sock_counter - 1 ≤ (m : Int)
          omega
      · refine ⟨hms, ?_, ?_, h3, h4⟩
        · push_cast at h1 ⊢
          omega
        · show w.pool.motor_sock_counter - 1 ≤ (m : Int)
          omega
  | release i now =>
    simp only [stepOp]
    rcases hidx : w.held[i]? with _ | s
    · exact ⟨hms, h1, h2, h3, h4⟩
    · dsimp only
      have hil : i < w.held.length := by
        rcases List.getElem?_eq_some_iff.mp hidx with ⟨hlt, -⟩
        exact hlt
      have hlen : (w.held.eraseIdx i).length + 1 = w.held.length :=
        List.length_eraseIdx_add_one hil
      rcases maybe_return_socket_cases w.pool s with
        ⟨hcl, hc⟩ | ⟨w', rest, hq, hc⟩ | ⟨hq, hc⟩ | ⟨hq, hc⟩ <;> rw [hc]
      · refine ⟨hms, ?_, ?_, h3, h4⟩
        · push_cast at h1 ⊢
          omega
        · show w.pool.motor_sock_counter - 1 ≤ (m : Int)
          omega
      · rw [hq] at h3 h4
        refine ⟨hms, ?_, h2, (List.pairwise_cons.mp h3).2, ?_⟩
        · simp only [List.length_cons]
          push_cast at h1 ⊢
          omega
        · intro x hx
          exact h4 x (List.mem_cons_of_mem w' hx)
      · refine ⟨hms, ?_, h2, h3, h4⟩
        simp only [List.length_append, List.length_cons, List.length_nil]
        push_cast at h1 ⊢
        omega
      · refine ⟨hms, ?_, ?_, h3, h4⟩
        · push_cast at h1 ⊢
          omega
        · show w.pool.motor_sock_counter - 1 ≤ (m : Int)
          omega
  | timerFire wtr =>
    simp only [stepOp]
    obtain ⟨e1, e2, e3, e4⟩ := on_timeout_state w.pool wtr
    refine ⟨by rw [e3]; exact hms, ?_, ?_, ?_, ?_⟩
    · show ((w.held.length + (on_timeout w.pool wtr).1.sockets.length : Nat) : Int) ≤
        (on_timeout w.pool wtr).1.motor_sock_counter
      rw [e1, e2]
      exact h1
    · show (on_timeout w.pool wtr).1.motor_sock_counter ≤ (m : Int)
      rw [e1]
      exact h2
    · show ((on_timeout w.pool wtr).1.queue).Pairwise (· < ·)
      rcases e4 with e4 | e4 <;> rw [e4]
      · exact h3
      · exact List.Pairwise.sublist (List.erase_sublist wtr w.pool.queue) h3
    · show ∀ x ∈ (on_timeout w.pool wtr).1.queue, x < w.nextWaiter
      rcases e4 with e4 | e4 <;> rw [e4]
      · exact h4
      · exact fun x hx => h4 x (List.mem_of_mem_erase hx)

theorem runOps_preserves (m : Nat) (hm : 0 < m) (w : World) (ops : List PoolOp)
    (h : WorldInv m w) : WorldInv m (runOps w ops) := by
  induction ops generalizing w with
  | nil => exact h
  | cons op rest ih => exact ih (stepOp w op) (stepOp_preserves m hm w op h)

theorem initWorld_inv (m wqm : Nat) (wqt ci : Option Nat) :
    WorldInv m (initWorld m wqm wqt ci) := by
  refine ⟨rfl, by simp [initWorld, initPool], by simp [initWorld, initPool], ?_, ?_⟩
  · exact List.Pairwise.nil
  · intro x hx
    exact absurd hx (List.not_mem_nil x)

/-- C1: for every sequence of complete, interleaved non-forced acquires
(`get_socket` with `force = False`) and releases
(`maybe_return_socket`), with waiter-deadline firings allowed in
between, on a fresh pool with finite `max_size = m > 0`: at every
quiescent point (after each complete call) the bookkeeping count
`motor_sock_counter` is at most `max_size`, and therefore so is the
number of resources checked out plus the number in the idle set (which
never exceeds `motor_sock_counter`). -/
theorem nonforced_traces_respect_max_size
    (m wqm : Nat) (wqt ci : Option Nat) (hm : 0 < m) (ops : List PoolOp) :
    (runOps (initWorld m wqm wqt ci) ops).pool.motor_sock_counter ≤ (m : Int) ∧
    (((runOps (initWorld m wqm wqt ci) ops).held.length +
        (runOps (initWorld m wqm wqt ci) ops).pool.sockets.length : Nat) : Int) ≤
      (m : Int) := by
  obtain ⟨-, h1, h2, -, -⟩ := runOps_preserves m hm (initWorld m wqm wqt ci) ops
    (initWorld_inv m wqm wqt ci)
  exact ⟨h2, le_trans h1 h2⟩

/-- C1 (witness): the capacity invariant evaluated on a concrete
`max_size = 1` trace — acquire (creates socket 10), acquire (enqueues
waiter 0), release (serves the waiter). -/
theorem nonforced_traces_respect_max_size_witness :
    0 < 1 ∧
    ((runOps (initWorld 1 0 none (some 1))
        [PoolOp.acquire 0 10 0 (Except.ok []) true,
         PoolOp.acquire 0 11 0 (Except.ok []) true,
         PoolOp.release 0 1]).pool.motor_sock_counter ≤ ((1 : Nat) : Int) ∧
      (((runOps (initWorld 1 0 none (some 1))
          [PoolOp.acquire 0 10 0 (Except.ok []) true,
           PoolOp.acquire 0 11 0 (Except.ok []) true,
           PoolOp.release 0 1]).held.length +
          (runOps (initWorld 1 0 none (some 1))
            [PoolOp.acquire 0 10 0 (Except.ok []) true,
             PoolOp.acquire 0 11 0 (Except.ok []) true,
             PoolOp.release 0 1]).pool.sockets.length : Nat) : Int) ≤
        ((1 : Nat) : Int)) :=
  ⟨by decide,
   nonforced_traces_respect_max_size 1 0 none (some 1) (by decide)
     [PoolOp.acquire 0 10 0 (Except.ok []) true,
      PoolOp.acquire 0 11 0 (Except.ok []) true,
      PoolOp.release 0 1]⟩

/-- C2: waiters are served strictly FIFO.  In any reachable state of a
non-forced trace, when `maybe_return_socket` hands the released socket
to waiter `a`, every waiter `b` still enqueued satisfies `a ≤ b` in
enqueue order (waiters are numbered by enqueue time) — release pops the
head of the deque, which the trace invariant keeps sorted by enqueue
order, so a resource is never handed to a later-queued waiter while an
earlier one is still in the queue. -/
theorem release_serves_earliest_waiter
    (m wqm : Nat) (wqt ci : Option Nat) (hm : 0 < m) (ops : List PoolOp)
    (s s2 : SocketInfo) (a b : Nat)
    (hserve : (maybe_return_socket
        (runOps (initWorld m wqm wqt ci) ops).pool (some s)).2 =
      ReturnOutcome.served a s2)
    (hb : b ∈ (runOps (initWorld m wqm wqt ci) ops).pool.queue) :
    a ≤ b := by
  obtain ⟨-, -, -, hp, -⟩ := runOps_preserves m hm (initWorld m wqm wqt ci) ops
    (initWorld_inv m wqm wqt ci)
  rcases maybe_return_socket_cases (runOps (initWorld m wqm wqt ci) ops).pool s with
    ⟨-, hc⟩ | ⟨w', rest, hq, hc⟩ | ⟨-, hc⟩ | ⟨-, hc⟩ <;> rw [hc] at hserve
  · cases hserve
  · injection hserve with ha hs2
    subst ha
    rw [hq] at hb hp
    rcases List.mem_cons.mp hb with rfl | hb2
    · exact le_rfl
    · exact le_of_lt ((List.pairwise_cons.mp hp).1 b hb2)
  · cases hserve
  · cases hserve

/-- C2 (witness): the FIFO theorem on a concrete `max_size = 1` trace
with two enqueued waiters (0 then 1): releasing socket 10 serves waiter
0 while waiter 1 is still queued, and 0 ≤ 1. -/
theorem release_serves_earliest_waiter_witness :
    0 < 1 ∧
    (maybe_return_socket
        (runOps (initWorld 1 0 none (some 1))
          [PoolOp.acquire 0 10 0 (Except.ok []) true,
           PoolOp.acquire 0 11 0 (Except.ok []) true,
           PoolOp.acquire 0 12 0 (Except.ok []) true]).pool
        (some (SocketInfo.mk 10 false 0 false 0))).2 =
      ReturnOutcome.served 0 (SocketInfo.mk 10 false 0 false 0) ∧
    1 ∈ (runOps (initWorld 1 0 none (some 1))
        [PoolOp.acquire 0 10 0 (Except.ok []) true,
         PoolOp.acquire 0 11 0 (Except.ok []) true,
         PoolOp.acquire 0 12 0 (Except.ok []) true]).pool.queue ∧
    (0 : Nat) ≤ 1 :=
  ⟨by decide, by decide, by decide,
   release_serves_earliest_waiter 1 0 none (some 1) (by decide)
     [PoolOp.acquire 0 10 0 (Except.ok []) true,
      PoolOp.acquire 0 11 0 (Except.ok []) true,
      PoolOp.acquire 0 12 0 (Except.ok []) true]
     (SocketInfo.mk 10 false 0 false 0) (SocketInfo.mk 10 false 0 false 0) 0 1
     (by decide) (by decide)⟩
